import Mathlib

/-!
Verification of the ShoeSwiper content-generator lambdas
(`html_generator.py`, `rss_handler.py`, `sitemap_handler.py`).

The Python sources are shallowly embedded: post and product records become
structures of `Option String` fields (DynamoDB items carry strings; a missing
key is `none`), Python `dict.get` with a default becomes `Option.getD`,
Python truthiness of a string is the test `≠ ""`, exceptions become `Option`
or `Except` results (`none` / `.error` marks a raised exception), `float()`
on plain decimal literals becomes an exact rational parse, `int()` on a float
becomes truncation toward zero, and `datetime` values become a record of
calendar fields plus an optional UTC offset (offset `none` models a
timezone-naive value).
-/

namespace ShoeSwiper

/-- Module-level constant `AFFILIATE_TAG` of `html_generator.py` (line 29),
with its default value. -/
def AFFILIATE_TAG : String := "shoeswiper-20"

/-- Module-level constant `DOMAIN` shared by all three lambdas, with its
default value. -/
def DOMAIN : String := "https://shoeswiper.com"

/-- Substring search on character lists: does the haystack contain the
needle as a contiguous run?  Embeds Python's `needle in haystack` on
strings. -/
def listContainsSub (needle : List Char) : List Char → Bool
  | [] => needle.isPrefixOf ([] : List Char)
  | c :: cs => needle.isPrefixOf (c :: cs) || listContainsSub needle cs

/-- Python's `needle in hay` substring test. -/
def strContains (hay needle : String) : Bool :=
  listContainsSub needle.data hay.data

/-- Python slicing `s[:n]`: the first `n` characters of `s`. -/
def pySlice (s : String) (n : Nat) : String :=
  ⟨s.data.take n⟩

/-- Python string repetition `c * n` for a single character: empty when the
count is zero or negative. -/
def pyRepeat (c : Char) (n : Int) : String :=
  ⟨List.replicate n.toNat c⟩

/-- Occurrences of a character in a string. -/
def countChar (s : String) (c : Char) : Nat :=
  s.data.count c

/-- Python `s.replace('$', '')`: removes every dollar sign (the code strips
prices with this before calling `float`). -/
def stripDollar (s : String) : String :=
  ⟨s.data.filter (fun c => c ≠ '$')⟩

/-- Value of a run of decimal digit characters. -/
def digitsToNat (l : List Char) : Nat :=
  l.foldl (fun acc c => acc * 10 + (c.toNat - 48)) 0

/-- An exact decimal value, the result of Python `float()` on a plain
decimal literal: the value is `±mant / 10 ^ scale`.  Integer arithmetic on
this form keeps every definition kernel-computable. -/
structure PyDecimal where
  neg : Bool
  mant : Nat
  scale : Nat
deriving DecidableEq

/-- Signed mantissa of a decimal: the value times `10 ^ scale`. -/
def PyDecimal.signedMant (d : PyDecimal) : Int :=
  if d.neg then -(d.mant : Int) else (d.mant : Int)

/-- Rational value of a parsed decimal (used only to state properties; the
executable path stays on integers). -/
def PyDecimal.toRat (d : PyDecimal) : ℚ :=
  (d.signedMant : ℚ) / ((10 : ℚ) ^ d.scale)

/-- Embeds Python `float(s)` on plain decimal literals
(`[+-]digits[.digits]`, at least one digit), returning the exact decimal
value; `none` models the `ValueError` raised on any other input.  Exponent
and whitespace forms accepted by CPython do not occur in this pipeline's
data and are treated as unparseable. -/
def pyFloat (s : String) : Option PyDecimal :=
  let step : List Char → Bool × List Char := fun cs =>
    match cs with
    | '-' :: r => (true, r)
    | '+' :: r => (false, r)
    | r => (false, r)
  let (neg, rest) := step s.data
  let intDigits := rest.takeWhile Char.isDigit
  let rest2 := rest.dropWhile Char.isDigit
  let build : List Char → List Char → Option PyDecimal := fun ip fp =>
    if ip.isEmpty && fp.isEmpty then none
    else some ⟨neg, digitsToNat (ip ++ fp), fp.length⟩
  match rest2 with
  | [] => build intDigits []
  | '.' :: fr =>
    let fracDigits := fr.takeWhile Char.isDigit
    let rest3 := fr.dropWhile Char.isDigit
    if rest3.isEmpty then build intDigits fracDigits else none
  | _ => none

/-- Embeds Python `int(x)` on a finite float value: truncation toward
zero. -/
def pyTrunc (d : PyDecimal) : Int :=
  d.signedMant.tdiv ((10 : Int) ^ d.scale)

/-- Python `a < b` on two decimal float values, by cross-multiplication. -/
def decLt (a b : PyDecimal) : Bool :=
  decide (a.signedMant * (10 : Int) ^ b.scale < b.signedMant * (10 : Int) ^ a.scale)

/-- Embeds `int((1 - price / original) * 100)` of `html_generator.py`
line 239 on exact decimal values: the rational `(o - p) * 100 / o`
truncated toward zero. -/
def discountOf (p o : PyDecimal) : Int :=
  (100 * (o.signedMant * (10 : Int) ^ p.scale - p.signedMant * (10 : Int) ^ o.scale)).tdiv
    (o.signedMant * (10 : Int) ^ p.scale)

/-- Formalizes the specification's `round(rating)` (Python `round`:
round-half-to-even).  This definition follows the spec's words, not the
source, and exists only to compare the spec's claim with the code. -/
def specRound (q : ℚ) : Int :=
  let f := ⌊q⌋
  let r := q - (f : ℚ)
  if r < 1 / 2 then f
  else if 1 / 2 < r then f + 1
  else if f % 2 = 0 then f else f + 1

/-- Per-character expansion of Python `html.escape(s)` (quote mode): the five
markup-significant characters become entities. -/
def escapeChar (c : Char) : List Char :=
  if c = '&' then "&amp;".data
  else if c = '<' then "&lt;".data
  else if c = '>' then "&gt;".data
  else if c = '"' then "&quot;".data
  else if c = Char.ofNat 39 then "&#x27;".data
  else [c]

/-- Embeds `escape_html` of `html_generator.py` (lines 64-68): Python
`html.escape` applied characterwise (an empty/falsy input yields the empty
string, which the characterwise map already gives). -/
def escape_html (s : String) : String :=
  ⟨s.data.flatMap escapeChar⟩

/-- A product record as read from a post item (`ProductRecord` of the spec):
every field is an optional string.  Field order: name, price, current_price,
original_price, image_url, image, asin, affiliate_link, url, rating,
review_count. -/
structure ProductRecord where
  name : Option String
  price : Option String
  current_price : Option String
  original_price : Option String
  image_url : Option String
  image : Option String
  asin : Option String
  affiliate_link : Option String
  url : Option String
  rating : Option String
  review_count : Option String
deriving DecidableEq

/-- A product record with every field absent; concrete test records are
built from it by replacing fields positionally. -/
def emptyProduct : ProductRecord :=
  ⟨none, none, none, none, none, none, none, none, none, none, none⟩

/-- Python `product.get('price', product.get('current_price', ''))`
(`html_generator.py` line 218). -/
def priceVal (p : ProductRecord) : String :=
  p.price.getD (p.current_price.getD "")

/-- Python `product.get('original_price', '')` (line 219). -/
def originalPriceVal (p : ProductRecord) : String :=
  p.original_price.getD ""

/-- Python `product.get('asin', '')` (line 221). -/
def asinVal (p : ProductRecord) : String :=
  p.asin.getD ""

/-- Python `product.get('rating', '')` (line 232). -/
def ratingVal (p : ProductRecord) : String :=
  p.rating.getD ""

/-- Python `product.get('review_count', '')` (line 233). -/
def reviewsVal (p : ProductRecord) : String :=
  p.review_count.getD ""

/-- Stored link fallback of the product card (`html_generator.py`
line 227): `product.get('affiliate_link', product.get('url', '#'))`. -/
def storedLink (p : ProductRecord) : String :=
  p.affiliate_link.getD (p.url.getD "#")

/-- Affiliate-link resolution of `generate_affiliate_product_html`
(`html_generator.py` lines 223-230): an ASIN builds the canonical Amazon
link; otherwise the stored link is reused and, when it mentions `amazon.com`
and does not already contain the tag, `?tag=` or `&tag=` is appended
depending on whether a `?` is already present. -/
def affiliateLinkOf (p : ProductRecord) : String :=
  if asinVal p ≠ "" then
    "https://www.amazon.com/dp/" ++ asinVal p ++ "?tag=" ++ AFFILIATE_TAG
  else
    let link := storedLink p
    if strContains link "amazon.com" && !(strContains link AFFILIATE_TAG) then
      let sep := if strContains link "?" then "&" else "?"
      link ++ sep ++ "tag=" ++ AFFILIATE_TAG
    else link

/-- Star row of the rating block (`html_generator.py` line 245):
`'★' * t + '☆' * (5 - t)` for `t = int(float(rating))`. -/
def starsOf (t : Int) : String :=
  pyRepeat '★' t ++ pyRepeat '☆' (5 - t)

/-- Price block of the product card (`html_generator.py` lines 235-241).
`none` models an uncaught exception: `float()` raising `ValueError` on a
non-numeric original price or price (line 238-239), or the
`ZeroDivisionError` in the discount expression when the original price
parses to zero. -/
def priceHtmlOf (p : ProductRecord) : Option String :=
  if priceVal p = "" then some ""
  else
    let base := "<span class=\"current-price\">$" ++ priceVal p ++ "</span>"
    if originalPriceVal p = "" then some base
    else
      match pyFloat (stripDollar (originalPriceVal p)),
            pyFloat (stripDollar (priceVal p)) with
      | some qo, some qp =>
        if decLt qp qo then
          if qo.mant = 0 then none
          else
            let discount := discountOf qp qo
            some (base
              ++ " <span class=\"original-price\">$" ++ originalPriceVal p ++ "</span>"
              ++ " <span class=\"discount-badge\">-" ++ toString discount ++ "%</span>")
        else some base
      | _, _ => none

/-- Rating block of the product card (`html_generator.py` lines 243-249).
`none` models `float()` raising `ValueError` on a non-numeric rating.  The
star row is `'★' * int(float(rating)) + '☆' * (5 - int(float(rating)))`;
Python renders a non-positive repetition count as the empty string. -/
def ratingHtmlOf (p : ProductRecord) : Option String :=
  if ratingVal p = "" then some ""
  else
    match pyFloat (ratingVal p) with
    | none => none
    | some q =>
      let stars := starsOf (pyTrunc q)
      let core := "<div class=\"rating\"><span class=\"stars\">" ++ stars ++ "</span>"
      let withReviews :=
        if reviewsVal p ≠ "" then
          core ++ " <span class=\"review-count\">(" ++ reviewsVal p ++ " reviews)</span>"
        else core
      some (withReviews ++ "</div>")

/-- Embeds `generate_affiliate_product_html` (`html_generator.py`
lines 215-265): the full card markup, `none` when the price or rating block
raises.  The price block is evaluated before the rating block, as in the
source. -/
def generate_affiliate_product_html (p : ProductRecord) : Option String := do
  let nm := escape_html (p.name.getD "Product")
  let image := p.image_url.getD (p.image.getD "")
  let link := affiliateLinkOf p
  let priceHtml ← priceHtmlOf p
  let ratingHtml ← ratingHtmlOf p
  pure ("\n    <div class=\"affiliate-product-card\">\n        <a href=\""
    ++ link ++ "\" target=\"_blank\" rel=\"nofollow sponsored noopener\" class=\"product-link\" data-asin=\""
    ++ asinVal p ++ "\">\n            <div class=\"product-image\">\n                <img src=\""
    ++ image ++ "\" alt=\"" ++ nm ++ "\" loading=\"lazy\">\n            </div>\n            <div class=\"product-info\">\n                <h4 class=\"product-name\">"
    ++ nm ++ "</h4>\n                " ++ ratingHtml
    ++ "\n                <div class=\"product-price\">" ++ priceHtml
    ++ "</div>\n                <span class=\"buy-button\">🛒 Buy Now</span>\n            </div>\n        </a>\n    </div>\n    ")

/-- A post record as stored in the DynamoDB table (`PostRecord` of the
spec): string-valued fields are optional strings, tag/keyword fields are
optional string lists, and `affiliate_products` is a product list.  Field
order: id, slug, title, excerpt, meta_description, content, created_at,
published_at, updated_at, featured_image, image_url, tags, keywords,
affiliate_products. -/
structure PostRecord where
  id : Option String
  slug : Option String
  title : Option String
  excerpt : Option String
  meta_description : Option String
  content : Option String
  created_at : Option String
  published_at : Option String
  updated_at : Option String
  featured_image : Option String
  image_url : Option String
  tags : Option (List String)
  keywords : Option (List String)
  affiliate_products : List ProductRecord
deriving DecidableEq

/-- A post record with every field absent; concrete test records are built
from it positionally. -/
def emptyPost : PostRecord :=
  ⟨none, none, none, none, none, none, none, none, none, none, none, none, none, []⟩

/-- Python `post.get('slug', post.get('id'))` as interpolated into URL
paths; when both keys are absent the f-string renders Python `None` as the
literal `None`. -/
def slugOf (post : PostRecord) : String :=
  post.slug.getD (post.id.getD "None")

/-- Raw description source of `generate_meta_tags`
(`html_generator.py` line 74, before escaping and truncation):
`post.get('meta_description', post.get('excerpt', ''))`. -/
def rawDescription (post : PostRecord) : String :=
  post.meta_description.getD (post.excerpt.getD "")

/-- Title binding of `generate_meta_tags` (`html_generator.py` line 73):
`escape_html(post.get('title', 'ShoeSwiper Blog'))`. -/
def metaTagsTitle (post : PostRecord) : String :=
  escape_html (post.title.getD "ShoeSwiper Blog")

/-- Description binding of `generate_meta_tags` (line 74): the escaped
fallback description cut to 160 characters. -/
def metaTagsDescription (post : PostRecord) : String :=
  pySlice (escape_html (rawDescription post)) 160

/-- The `<title>` element emitted by `generate_meta_tags` (line 85). -/
def metaTitleElement (post : PostRecord) (configName : String) : String :=
  "<title>" ++ metaTagsTitle post ++ " | " ++ configName ++ "</title>"

/-- Title binding of `generate_article_html` (`html_generator.py`
line 270): `escape_html(post.get('title', 'Untitled'))`. -/
def articleTitle (post : PostRecord) : String :=
  escape_html (post.title.getD "Untitled")

/-- Title of an index-page card (`generate_index_page`, line 836). -/
def indexCardTitle (post : PostRecord) : String :=
  escape_html (post.title.getD "Untitled")

/-- Excerpt of an index-page card (`generate_index_page`, line 837):
`escape_html(post.get('excerpt', ''))[:200]`. -/
def indexCardExcerpt (post : PostRecord) : String :=
  pySlice (escape_html (post.excerpt.getD "")) 200

/-- The excerpt paragraph of an index-page card (line 860):
`<p>{excerpt}...</p>` — the ellipsis literal is appended
unconditionally. -/
def indexCardBody (post : PostRecord) : String :=
  "<p>" ++ indexCardExcerpt post ++ "...</p>"

/-- Item title of the RSS renderer (`rss_handler.py` line 157):
`post.get('title', 'Untitled')`. -/
def rssItemTitle (post : PostRecord) : String :=
  post.title.getD "Untitled"

/-- Entry title of the Atom renderer (`rss_handler.py` line 275):
`post.get('title', 'Untitled')`. -/
def atomEntryTitle (post : PostRecord) : String :=
  post.title.getD "Untitled"

/-! ### Datetime model

Python `datetime` values are embedded as calendar fields plus an optional
fixed UTC offset in minutes; `tzOffsetMin = none` models a timezone-naive
value.  Mixing naive and aware values in a comparison or subtraction raises
`TypeError` in Python; the embedding returns `none` there. -/

/-- A Python `datetime` value. -/
structure PyDateTime where
  year : Int
  month : Nat
  day : Nat
  hour : Nat
  minute : Nat
  second : Nat
  microsecond : Nat
  tzOffsetMin : Option Int
deriving DecidableEq

/-- Gregorian leap-year test. -/
def isLeap (y : Int) : Bool :=
  (y % 4 == 0 && y % 100 != 0) || y % 400 == 0

/-- Length of a month in the proleptic Gregorian calendar. -/
def daysInMonth (y : Int) (m : Nat) : Nat :=
  if m = 2 then (if isLeap y then 29 else 28)
  else if m = 4 || m = 6 || m = 9 || m = 11 then 30
  else 31

/-- Days since the Unix epoch of a Gregorian date (civil-from-days
inverse, Hinnant's algorithm with floored division). -/
def daysFromCivil (y : Int) (m : Nat) (d : Nat) : Int :=
  let y' : Int := if m ≤ 2 then y - 1 else y
  let era : Int := Int.fdiv y' 400
  let yoe : Int := y' - era * 400
  let mp : Int := if m ≤ 2 then (m : Int) + 9 else (m : Int) - 3
  let doy : Int := Int.fdiv (153 * mp + 2) 5 + (d : Int) - 1
  let doe : Int := yoe * 365 + Int.fdiv yoe 4 - Int.fdiv yoe 100 + doy
  era * 146097 + doe - 719468

/-- Microseconds since the Unix epoch of a datetime interpreted at the
given UTC offset (in minutes). -/
def epochMicroAt (dt : PyDateTime) (off : Int) : Int :=
  ((daysFromCivil dt.year dt.month dt.day) * 86400
    + (dt.hour : Int) * 3600 + (dt.minute : Int) * 60 + (dt.second : Int)
    - off * 60) * 1000000 + (dt.microsecond : Int)

/-- Difference `a - b` in microseconds.  `none` models the `TypeError`
Python raises when one operand is naive and the other aware; two naive
values compare on their wall-clock fields. -/
def pyDiffMicro (a b : PyDateTime) : Option Int :=
  match a.tzOffsetMin, b.tzOffsetMin with
  | some oa, some ob => some (epochMicroAt a oa - epochMicroAt b ob)
  | none, none => some (epochMicroAt a 0 - epochMicroAt b 0)
  | _, _ => none

/-- Python `a >= b` on datetimes (`none` = `TypeError`). -/
def pyGE (a b : PyDateTime) : Option Bool :=
  (pyDiffMicro a b).map (fun μ => decide (0 ≤ μ))

/-- Python `(a - b).days`: the difference floored to whole days (`none` =
`TypeError`). -/
def timedeltaDays (a b : PyDateTime) : Option Int :=
  (pyDiffMicro a b).map (fun μ => Int.fdiv μ 86400000000)

/-- Consume exactly `n` decimal digits. -/
def parseNDigits (n : Nat) (cs : List Char) : Option (Nat × List Char) :=
  let ds := cs.take n
  if ds.length = n && ds.all Char.isDigit then some (digitsToNat ds, cs.drop n)
  else none

/-- Consume one expected character. -/
def expectChar (c : Char) : List Char → Option (List Char)
  | x :: xs => if x = c then some xs else none
  | [] => none

/-- Time-of-day tail of an ISO string: optional `:SS` and optional
3- or 6-digit fraction, as accepted by `datetime.fromisoformat`. -/
def parseSecondsPart (cs : List Char) : Option (Nat × Nat × List Char) :=
  match cs with
  | ':' :: r => do
    let (se, r) ← parseNDigits 2 r
    match r with
    | '.' :: r4 =>
      let frac := r4.takeWhile Char.isDigit
      let r5 := r4.dropWhile Char.isDigit
      if frac.length = 6 then some (se, digitsToNat frac, r5)
      else if frac.length = 3 then some (se, digitsToNat frac * 1000, r5)
      else none
    | _ => some (se, 0, r)
  | _ => some (0, 0, cs)

/-- Embeds `datetime.fromisoformat` on the classic
`YYYY-MM-DD[*HH:MM[:SS[.fff[fff]]][±HH:MM]]` layout (the only layout this
pipeline's data uses); `none` models the `ValueError` raised on any other
input. -/
def fromisoformat (s : String) : Option PyDateTime := do
  let (y, r) ← parseNDigits 4 s.data
  let r ← expectChar '-' r
  let (mo, r) ← parseNDigits 2 r
  let r ← expectChar '-' r
  let (d, r) ← parseNDigits 2 r
  if !(1 ≤ mo && mo ≤ 12) then none
  else if !(1 ≤ d && d ≤ daysInMonth (y : Int) mo) then none
  else
    match r with
    | [] => some ⟨(y : Int), mo, d, 0, 0, 0, 0, none⟩
    | sep :: r2 =>
      if sep ≠ 'T' && sep ≠ ' ' then none
      else do
        let (h, r) ← parseNDigits 2 r2
        let r ← expectChar ':' r
        let (mi, r) ← parseNDigits 2 r
        let (se, micro, r) ← parseSecondsPart r
        if !(h ≤ 23 && mi ≤ 59 && se ≤ 59) then none
        else
          match r with
          | [] => some ⟨(y : Int), mo, d, h, mi, se, micro, none⟩
          | c :: r6 =>
            if c = '+' || c = '-' then do
              let (oh, r) ← parseNDigits 2 r6
              let r ← expectChar ':' r
              let (om, r) ← parseNDigits 2 r
              if !r.isEmpty then none
              else
                let off : Int := ((oh * 60 + om : Nat) : Int)
                some ⟨(y : Int), mo, d, h, mi, se, micro,
                  some (if c = '-' then -off else off)⟩
            else none

/-- Python `s.replace('Z', '+00:00')` (a single-character needle, so a
characterwise expansion is exact). -/
def replaceZ (s : String) : String :=
  ⟨s.data.flatMap (fun c => if c = 'Z' then "+00:00".data else [c])⟩

/-- The idiom `datetime.fromisoformat(s.replace('Z', '+00:00'))` used at
every timestamp parse site of the pipeline. -/
def parsePublished (s : String) : Option PyDateTime :=
  fromisoformat (replaceZ s)

/-! ### Sitemap generator (`sitemap_handler.py`) -/

/-- Age-to-change-frequency table of `SitemapGenerator.generate_sitemap`
(`sitemap_handler.py` lines 162-169). -/
def ageChangefreq (days_old : Int) : String :=
  if days_old < 7 then "daily"
  else if days_old < 30 then "weekly"
  else if days_old < 180 then "monthly"
  else "yearly"

/-- Change-frequency assignment of `SitemapGenerator.generate_sitemap`
(`sitemap_handler.py` lines 151-173): an absent or falsy `published_at`
uses the category default, the `try` block parses the timestamp and
computes `(now - pub).days`, and any exception inside it (`ValueError`
from the parse, or `TypeError` from subtracting a naive datetime from the
aware `now`) falls back to the category default. -/
def changefreqOfPost (now : PyDateTime) (cfgDefault : String)
    (published_at : Option String) : String :=
  match published_at with
  | none => cfgDefault
  | some s =>
    if s = "" then cfgDefault
    else
      match parsePublished s with
      | none => cfgDefault
      | some pub =>
        match timedeltaDays now pub with
        | none => cfgDefault
        | some days_old => ageChangefreq days_old

/-- One entry of the news sitemap (`sitemap_handler.py` lines 226-253). -/
structure NewsEntry where
  loc : String
  publicationName : String
  publicationLanguage : String
  publicationDate : String
  title : String
  keywords : Option String
deriving DecidableEq

/-- Two-digit zero padding. -/
def pad2 (n : Nat) : String :=
  if n < 10 then "0" ++ toString n else toString n

/-- Four-digit zero padding of a year. -/
def pad4 (n : Int) : String :=
  let m := n.toNat
  if m < 10 then "000" ++ toString m
  else if m < 100 then "00" ++ toString m
  else if m < 1000 then "0" ++ toString m
  else toString m

/-- `pub_dt.strftime('%Y-%m-%dT%H:%M:%S+00:00')` (`sitemap_handler.py`
line 243). -/
def strftimeNews (dt : PyDateTime) : String :=
  pad4 dt.year ++ "-" ++ pad2 dt.month ++ "-" ++ pad2 dt.day ++ "T"
    ++ pad2 dt.hour ++ ":" ++ pad2 dt.minute ++ ":" ++ pad2 dt.second ++ "+00:00"

/-- Keyword line of a news entry (`sitemap_handler.py` lines 247-253):
`post.get('keywords', post.get('tags', []))`, first 10 items joined by
comma-space; no element is emitted when the list is empty. -/
def newsKeywords (post : PostRecord) : Option String :=
  let kws := post.keywords.getD (post.tags.getD [])
  if kws.isEmpty then none
  else some (String.intercalate ", " (kws.take 10))

/-- Builds one news entry (`sitemap_handler.py` lines 226-253).  Posts
reaching this point passed the recency filter, so their `published_at`
re-parses successfully; the `now` fallback mirrors line 238's default and
is unreachable for filtered posts. -/
def newsEntryOf (path : String) (now : PyDateTime) (post : PostRecord) : NewsEntry :=
  let pub :=
    match post.published_at with
    | some s => (parsePublished s).getD now
    | none => now
  ⟨DOMAIN ++ "/" ++ path ++ "/" ++ slugOf post, "ShoeSwiper", "en",
    strftimeNews pub, post.title.getD "Untitled", newsKeywords post⟩

/-- Start of the current UTC day:
`datetime.now(timezone.utc).replace(hour=0, minute=0, second=0,
microsecond=0)` (`sitemap_handler.py` line 201). -/
def startOfToday (now : PyDateTime) : PyDateTime :=
  ⟨now.year, now.month, now.day, 0, 0, 0, 0, now.tzOffsetMin⟩

/-- The news-sitemap cutoff `cutoff.replace(day=cutoff.day - 2)`
(`sitemap_handler.py` line 202).  `datetime.replace` validates the new
day against the current month; `none` models the `ValueError` (day out of
range) raised when `day - 2` is not a valid day-of-month. -/
def newsCutoff (now : PyDateTime) : Option PyDateTime :=
  let c := startOfToday now
  let nd : Int := (c.day : Int) - 2
  if 1 ≤ nd && nd ≤ (daysInMonth c.year c.month : Int) then
    some ⟨c.year, c.month, c.day - 2, 0, 0, 0, 0, c.tzOffsetMin⟩
  else none

/-- The value `newsCutoff` produces when the day replacement is valid:
midnight two calendar days earlier in the same month. -/
def cutoffFor (now : PyDateTime) : PyDateTime :=
  ⟨now.year, now.month, now.day - 2, 0, 0, 0, 0, now.tzOffsetMin⟩

/-- Recency filter of the news sitemap (`sitemap_handler.py`
lines 205-217): a post survives when its `published_at` is present, truthy,
parses, and compares `>= cutoff`; a parse `ValueError` or comparison
`TypeError` is swallowed (`except: pass`), dropping the post. -/
def newsIncludePost (cutoff : PyDateTime) (post : PostRecord) : Bool :=
  match post.published_at with
  | none => false
  | some s =>
    if s = "" then false
    else
      match parsePublished s with
      | none => false
      | some dt => (pyGE dt cutoff).getD false

/-- Embeds `SitemapGenerator.generate_news_sitemap` (`sitemap_handler.py`
lines 196-256) down to its entry list: `.error` models the uncaught
`ValueError` from the cutoff computation, `.ok none` is the Python `None`
returned when no recent post survives, and `.ok (some entries)` carries
the entries of the emitted document in order. -/
def generate_news_sitemap (now : PyDateTime) (path : String)
    (posts : List PostRecord) : Except Unit (Option (List NewsEntry)) :=
  match newsCutoff now with
  | none => .error ()
  | some cutoff =>
    let recent := posts.filter (newsIncludePost cutoff)
    if recent.isEmpty then .ok none
    else .ok (some (recent.map (newsEntryOf path now)))

/-! ### Storage fetch paths and lambda handlers

The DynamoDB and S3 collaborators are abstracted as inputs: an indexed
query either succeeds with its item list (`Except.ok`) or raises
(`Except.error`, triggering the fallback scan whose unordered items are a
second input), and an upload is a predicate on the destination key. -/

/-- The configured blog categories (keys of `BLOG_CONFIGS`, identical in
all three lambdas). -/
def BLOG_CATEGORIES : List String := ["sneaker", "shoes", "workwear", "music"]

/-- Path segment of a category's configuration: every `BLOG_CONFIGS` entry
maps category `c` to path `blog/c`. -/
def configPath (category : String) : String := "blog/" ++ category

/-- Code-point lexicographic order on character lists: Python's string
comparison, used as the sort key order of `list.sort`. -/
def charListLe : List Char → List Char → Bool
  | [], _ => true
  | _ :: _, [] => false
  | a :: as, b :: bs =>
    if a = b then charListLe as bs else decide (a.toNat < b.toNat)

/-- Python `s <= t` on strings (code-point lexicographic). -/
def strLe (s t : String) : Bool := charListLe s.data t.data

/-- Sort key `x.get('published_at', '')` of the RSS fallback scan
(`rss_handler.py` line 101). -/
def pubKey (p : PostRecord) : String := p.published_at.getD ""

/-- `items.sort(key=lambda x: x.get('published_at', ''), reverse=True)`
(`rss_handler.py` line 101): a stable sort, descending by the
`published_at` string. -/
def sortByPublishedDesc (items : List PostRecord) : List PostRecord :=
  items.mergeSort (fun a b => strLe (pubKey b) (pubKey a))

/-- Descending publish order, as the spec describes the post list. -/
def pubSortedDesc (l : List PostRecord) : Prop :=
  l.Pairwise (fun a b => strLe (pubKey b) (pubKey a) = true)

/-- Embeds `RSSFeedGenerator.fetch_posts` (`rss_handler.py` lines 74-102):
a successful indexed query returns its items; a query exception falls back
to the unindexed scan, whose items are sorted by `published_at` descending
and truncated to the limit. -/
def rss_fetch_posts (limit : Nat) (query : Except Unit (List PostRecord))
    (scan : List PostRecord) : List PostRecord :=
  match query with
  | .ok items => items
  | .error _ => (sortByPublishedDesc scan).take limit

/-- Embeds `SitemapGenerator.fetch_posts` (`sitemap_handler.py`
lines 72-110): the paginated query loop concatenates its pages (given here
already concatenated) and caps at the limit; a query exception falls back
to the unindexed scan, whose items are used verbatim — no sort — and
truncated to the limit. -/
def sitemap_fetch_posts (limit : Nat) (query : Except Unit (List PostRecord))
    (scan : List PostRecord) : List PostRecord :=
  match query with
  | .ok items => items.take limit
  | .error _ => scan.take limit

/-- Does building the RSS item of a post raise?  `rss_handler.py`
lines 171-174 parse `post.get('published_at', post.get('created_at',
now_iso))` with no `try`; an unparseable string propagates
`ValueError`.  (When both keys are absent the default is
`datetime.now(timezone.utc).isoformat()`, which always parses.) -/
def rssItemRaises (post : PostRecord) : Bool :=
  match post.published_at.orElse (fun _ => post.created_at) with
  | some s => (parsePublished s).isNone
  | none => false

/-- Does building the Atom entry of a post raise?  `rss_handler.py`
lines 284-297 parse the publish timestamp like the RSS item and then
`post.get('updated_at', pub_date)` the same way. -/
def atomEntryRaises (post : PostRecord) : Bool :=
  rssItemRaises post ||
    (match post.updated_at with
     | some s => (parsePublished s).isNone
     | none => false)

/-- Does `generate_rss` raise on this post list? -/
def rssGenRaises (posts : List PostRecord) : Bool :=
  posts.any rssItemRaises

/-- Does `generate_atom` raise on this post list? -/
def atomGenRaises (posts : List PostRecord) : Bool :=
  posts.any atomEntryRaises

/-- A lambda response summary: the HTTP status code plus the per-item
success and failure lists of the JSON body. -/
structure LambdaResponse where
  statusCode : Nat
  success : List String
  failed : List String
deriving DecidableEq

/-- Per-blog body of the `rss_handler.py` handler loop (lines 413-453):
an empty post list or an exception is recorded as a failure; otherwise the
RSS feed is built and uploaded, then the Atom feed — an exception during
the Atom build still keeps the already-recorded RSS success. -/
def rss_process_blog (fetch : String → List PostRecord)
    (uploadOk : String → Bool) (blog : String) : List String × List String :=
  let posts := fetch blog
  if posts.isEmpty then ([], [blog])
  else if rssGenRaises posts then ([], [blog])
  else
    let s1 := if uploadOk (configPath blog ++ "/feed.xml")
      then [blog ++ ":rss"] else []
    if atomGenRaises posts then (s1, [blog])
    else
      (s1 ++ (if uploadOk (configPath blog ++ "/atom.xml")
        then [blog ++ ":atom"] else []), [])

/-- Embeds `lambda_handler` of `rss_handler.py` (lines 378-480): processes
each blog, appends the OPML artifact, and returns status 200 when the
failure list is empty, 207 otherwise (line 471). -/
def rss_lambda_handler (blogs : List String) (fetch : String → List PostRecord)
    (uploadOk : String → Bool) : LambdaResponse :=
  let step := fun (acc : List String × List String) blog =>
    (acc.1 ++ (rss_process_blog fetch uploadOk blog).1,
     acc.2 ++ (rss_process_blog fetch uploadOk blog).2)
  let r := blogs.foldl step ([], [])
  let succ := if uploadOk "blog/feeds.opml" then r.1 ++ ["opml"] else r.1
  ⟨if r.2.isEmpty then 200 else 207, succ, r.2⟩

/-- Does `generate_full_html_page` raise on this post?  The only uncaught
exception path is the product card (`html_generator.py` lines 313-320
render `products[:6]` cards with no `try`; a card raises per
`generate_affiliate_product_html`). -/
def postPageRaises (post : PostRecord) : Bool :=
  (post.affiliate_products.take 6).any
    (fun pr => (generate_affiliate_product_html pr).isNone)

/-- Per-post body of the `html_generator.py` handler loop
(lines 1073-1092): a raising page render is recorded in the error list;
otherwise a successful upload is recorded as generated. -/
def html_process_post (uploadOk : String → Bool) (path : String)
    (post : PostRecord) : List String × List String :=
  if postPageRaises post then ([], [post.id.getD "None"])
  else if uploadOk (path ++ "/" ++ slugOf post ++ "/index.html") then
    ([slugOf post], [])
  else ([], [])

/-- Embeds `lambda_handler` of `html_generator.py` (lines 1014-1101):
unknown categories are skipped, the index page and each post page are
generated and uploaded with per-item error recording, and the returned
status code is the literal 200 (line 1095) regardless of recorded
errors. -/
def html_lambda_handler (categories : List String) (generateIndex : Bool)
    (fetch : String → List PostRecord) (uploadOk : String → Bool) : LambdaResponse :=
  let step := fun (acc : List String × List String) category =>
    if BLOG_CATEGORIES.contains category then
      let path := configPath category
      let posts := fetch category
      let acc :=
        if generateIndex && uploadOk (path ++ "/index.html") then
          (acc.1 ++ ["index:" ++ category], acc.2)
        else acc
      posts.foldl (fun a post =>
        (a.1 ++ (html_process_post uploadOk path post).1,
         a.2 ++ (html_process_post uploadOk path post).2)) acc
    else acc
  let r := categories.foldl step ([], [])
  ⟨200, r.1, r.2⟩

/-- Per-category body of the `sitemap_handler.py` handler loop
(lines 442-490): the main sitemap is generated and uploaded, then the news
sitemap; an exception inside the category's `try` (notably the news-cutoff
`ValueError`) is recorded as an error entry while earlier recorded
artifacts stay. -/
def sitemap_process_category (now : PyDateTime)
    (fetch : String → List PostRecord) (uploadOk : String → Bool)
    (category : String) : List String × List String :=
  let path := configPath category
  let posts := fetch category
  let s1 := if uploadOk (path ++ "/sitemap.xml") then ["main:" ++ category] else []
  match generate_news_sitemap now path posts with
  | .error _ => (s1, [category])
  | .ok none => (s1, [])
  | .ok (some _) =>
    (s1 ++ (if uploadOk (path ++ "/sitemap-news.xml")
      then ["news:" ++ category] else []), [])

/-- Embeds `lambda_handler` of `sitemap_handler.py` (lines 400-536):
processes each known category with per-category error recording and
returns the literal status 200 (line 530) regardless of recorded
errors. -/
def sitemap_lambda_handler (categories : List String) (now : PyDateTime)
    (fetch : String → List PostRecord) (uploadOk : String → Bool) : LambdaResponse :=
  let step := fun (acc : List String × List String) category =>
    if BLOG_CATEGORIES.contains category then
      (acc.1 ++ (sitemap_process_category now fetch uploadOk category).1,
       acc.2 ++ (sitemap_process_category now fetch uploadOk category).2)
    else acc
  let r := categories.foldl step ([], [])
  ⟨200, r.1, r.2⟩

/-! ## Helper lemmas -/

/-- The rating block raises exactly when a truthy rating fails to parse. -/
theorem ratingHtmlOf_eq_none_iff (p : ProductRecord) :
    ratingHtmlOf p = none ↔ ratingVal p ≠ "" ∧ pyFloat (ratingVal p) = none := by
  unfold ratingHtmlOf
  by_cases h : ratingVal p = ""
  · simp [h]
  · simp only [if_neg h]
    cases hf : pyFloat (ratingVal p) <;> simp [h, hf]

/-- The full card raises exactly when the price block or the rating block
raises. -/
theorem generate_card_eq_none_iff (p : ProductRecord) :
    generate_affiliate_product_html p = none ↔
      priceHtmlOf p = none ∨ ratingHtmlOf p = none := by
  unfold generate_affiliate_product_html
  cases hp : priceHtmlOf p <;> cases hr : ratingHtmlOf p <;>
    simp [hp, hr, Option.bind]

/-- Star counts of the star row: `t` filled stars, `5 - t` empty stars,
each clamped at zero. -/
theorem countChar_starsOf (t : Int) :
    countChar (starsOf t) '★' = t.toNat ∧ countChar (starsOf t) '☆' = (5 - t).toNat := by
  unfold countChar starsOf pyRepeat
  refine ⟨?_, ?_⟩
  all_goals simp [String.data_append, List.count_append, List.count_replicate]

/-- The empty string never parses as a float. -/
theorem pyFloat_empty : pyFloat "" = none := by rfl

/-- The empty string never parses as a timestamp. -/
theorem parsePublished_empty : parsePublished "" = none := by rfl

/-- HTML escaping never shortens a string (each character expands to at
least one character). -/
theorem length_le_escape_html (s : String) : s.length ≤ (escape_html s).length := by
  show s.data.length ≤ (s.data.flatMap escapeChar).length
  induction s.data with
  | nil => simp
  | cons c cs ih =>
    have h1 : 1 ≤ (escapeChar c).length := by
      unfold escapeChar
      split_ifs <;> simp
    simp only [List.flatMap_cons, List.length_append, List.length_cons]
    omega

/-- Day linearity of the epoch-day count: within a month, moving the
day-of-month two back moves the day count two back. -/
theorem daysFromCivil_day_sub_two (y : Int) (m : Nat) (d : Nat) (h2 : 2 ≤ d) :
    daysFromCivil y m (d - 2) = daysFromCivil y m d - 2 := by
  unfold daysFromCivil
  have hc : ((d - 2 : Nat) : Int) = (d : Int) - 2 := by omega
  by_cases hm : m ≤ 2 <;> simp only [hm, if_true, if_false, ite_true, ite_false, hc] <;> ring

/-- Valid wall-clock fields bound the time-of-day below one day. -/
theorem epochMicroAt_split (dt : PyDateTime) :
    epochMicroAt dt 0 =
      daysFromCivil dt.year dt.month dt.day * 86400000000
        + ((dt.hour : Int) * 3600 + (dt.minute : Int) * 60 + (dt.second : Int)) * 1000000
        + (dt.microsecond : Int) := by
  unfold epochMicroAt
  ring

/-- On a day-of-month of at least 3 (and a valid date), the cutoff
computation succeeds and yields midnight two days back in the same
month. -/
theorem newsCutoff_eq_some (now : PyDateTime) (h3 : 3 ≤ now.day)
    (h2 : now.day ≤ daysInMonth now.year now.month) :
    newsCutoff now = some (cutoffFor now) := by
  unfold newsCutoff startOfToday cutoffFor
  dsimp only
  split
  · rfl
  · rename_i hfail
    simp only [Bool.and_eq_true, decide_eq_true_eq, not_and] at hfail
    omega

/-- On the 1st or 2nd day of a month, the cutoff computation raises
`ValueError`. -/
theorem newsCutoff_eq_none (now : PyDateTime) (h3 : now.day < 3) :
    newsCutoff now = none := by
  unfold newsCutoff startOfToday
  dsimp only
  split
  · rename_i hcond
    simp only [Bool.and_eq_true, decide_eq_true_eq] at hcond
    omega
  · rfl

/-- Epoch microseconds of the cutoff: exactly two days before the start of
the current day. -/
theorem epochMicro_cutoffFor (now : PyDateTime) (h3 : 3 ≤ now.day) :
    epochMicroAt (cutoffFor now) 0 =
      (daysFromCivil now.year now.month now.day - 2) * 86400000000 := by
  unfold cutoffFor epochMicroAt
  simp only []
  rw [daysFromCivil_day_sub_two _ _ _ (by omega)]
  push_cast
  ring

/-- Transitivity of the code-point lexicographic order. -/
theorem charListLe_trans : ∀ (a b c : List Char),
    charListLe a b = true → charListLe b c = true → charListLe a c = true := by
  intro a
  induction a with
  | nil => intro b c h1 h2; rfl
  | cons x xs ih =>
    intro b c h1 h2
    cases b with
    | nil => exact absurd h1 (by simp [charListLe])
    | cons y ys =>
      cases c with
      | nil => exact absurd h2 (by simp [charListLe])
      | cons z zs =>
        simp only [charListLe] at h1 h2 ⊢
        by_cases hxy : x = y <;> by_cases hyz : y = z
        · subst hxy
          subst hyz
          simp only [if_pos rfl] at h1 h2 ⊢
          exact ih ys zs h1 h2
        · subst hxy
          simp only [if_neg hyz] at h2 ⊢
          exact h2
        · subst hyz
          simp only [if_neg hxy] at h1 ⊢
          exact h1
        · rw [if_neg hxy] at h1
          rw [if_neg hyz] at h2
          rw [decide_eq_true_eq] at h1 h2
          by_cases hxz : x = z
          · subst hxz
            omega
          · rw [if_neg hxz, decide_eq_true_eq]
            omega

/-- Totality of the code-point lexicographic order. -/
theorem charListLe_total : ∀ (a b : List Char),
    (charListLe a b || charListLe b a) = true := by
  intro a
  induction a with
  | nil => intro b; simp [charListLe]
  | cons x xs ih =>
    intro b
    cases b with
    | nil => simp [charListLe]
    | cons y ys =>
      simp only [charListLe]
      by_cases hxy : x = y
      · subst hxy
        simp only [if_pos rfl]
        exact ih ys
      · have hne : x.toNat ≠ y.toNat := fun h =>
          hxy (Char.eq_of_val_eq (UInt32.eq_of_val_eq (Fin.eq_of_val_eq h)))
        rw [if_neg hxy, if_neg (Ne.symm hxy)]
        simp only [Bool.or_eq_true, decide_eq_true_eq]
        omega

/-! ## Claims -/

/-- C1: for every product record, if `asin` is present (non-empty) the
affiliate link is `https://www.amazon.com/dp/{asin}?tag={AFFILIATE_TAG}`;
otherwise the stored link is reused, with `?tag={AFFILIATE_TAG}` appended
when it has no `?` and `&tag={AFFILIATE_TAG}` appended when it has one,
and only when the link contains `amazon.com` and does not already contain
the tag; a link already carrying the tag, or a non-amazon link, is left
unchanged. -/
theorem C1_affiliate_link (p : ProductRecord) :
    (asinVal p ≠ "" →
      affiliateLinkOf p =
        "https://www.amazon.com/dp/" ++ asinVal p ++ "?tag=" ++ AFFILIATE_TAG) ∧
    (asinVal p = "" → strContains (storedLink p) "amazon.com" = true →
      strContains (storedLink p) AFFILIATE_TAG = false →
      strContains (storedLink p) "?" = false →
      affiliateLinkOf p = storedLink p ++ "?tag=" ++ AFFILIATE_TAG) ∧
    (asinVal p = "" → strContains (storedLink p) "amazon.com" = true →
      strContains (storedLink p) AFFILIATE_TAG = false →
      strContains (storedLink p) "?" = true →
      affiliateLinkOf p = storedLink p ++ "&tag=" ++ AFFILIATE_TAG) ∧
    (asinVal p = "" → strContains (storedLink p) AFFILIATE_TAG = true →
      affiliateLinkOf p = storedLink p) ∧
    (asinVal p = "" → strContains (storedLink p) "amazon.com" = false →
      affiliateLinkOf p = storedLink p) := by
  have hq : ∀ s t : String, s ++ "?" ++ "tag=" ++ t = s ++ "?tag=" ++ t := by
    intro s t
    rw [String.append_assoc s "?" "tag="]
    rfl
  have hA : ∀ s t : String, s ++ "&" ++ "tag=" ++ t = s ++ "&tag=" ++ t := by
    intro s t
    rw [String.append_assoc s "&" "tag="]
    rfl
  unfold affiliateLinkOf
  by_cases ha : asinVal p = "" <;>
    simp only [ha, ne_eq, not_true_eq_false, not_false_eq_true, if_true, if_false,
      ite_true, ite_false, if_neg, if_pos] <;>
    refine ⟨?_, ?_, ?_, ?_, ?_⟩ <;> intros <;> simp_all [hq, hA]

/-- Witness for C1 at concrete products: an ASIN link, an amazon link with
an existing query, an amazon link without one, a link already tagged, and
a non-amazon link. -/
theorem C1_affiliate_link_witness :
    affiliateLinkOf ⟨none, none, none, none, none, none, some "B000X", none, none, none, none⟩
      = "https://www.amazon.com/dp/B000X?tag=shoeswiper-20" ∧
    affiliateLinkOf ⟨none, none, none, none, none, none, none,
        some "https://amazon.com/dp/B000X?ref=abc", none, none, none⟩
      = "https://amazon.com/dp/B000X?ref=abc&tag=shoeswiper-20" ∧
    affiliateLinkOf ⟨none, none, none, none, none, none, none,
        some "https://amazon.com/dp/B000X", none, none, none⟩
      = "https://amazon.com/dp/B000X?tag=shoeswiper-20" ∧
    affiliateLinkOf ⟨none, none, none, none, none, none, none,
        some "https://amazon.com/dp/B000X?tag=shoeswiper-20", none, none, none⟩
      = "https://amazon.com/dp/B000X?tag=shoeswiper-20" ∧
    affiliateLinkOf ⟨none, none, none, none, none, none, none,
        some "https://example.com/shoe", none, none, none⟩
      = "https://example.com/shoe" := by
  refine ⟨((C1_affiliate_link _).1 (by decide)).trans (by decide),
    (((C1_affiliate_link _).2.2.1 (by decide) (by decide) (by decide) (by decide)).trans
      (by decide)),
    (((C1_affiliate_link _).2.1 (by decide) (by decide) (by decide) (by decide)).trans
      (by decide)),
    (((C1_affiliate_link _).2.2.2.1 (by decide) (by decide)).trans (by decide)),
    (((C1_affiliate_link _).2.2.2.2 (by decide) (by decide)).trans (by decide))⟩

/-- C2 (counterexample): the claim says the rating block shows
`round(rating)` filled stars.  For the product with rating `"4.7"` the code
renders `int(float('4.7')) = 4` filled stars and one empty star, while
`round(4.7) = 5`: the claim fails as stated. -/
theorem C2_rating_round_counterexample :
    pyFloat "4.7" = some ⟨false, 47, 1⟩ ∧
    (⟨false, 47, 1⟩ : PyDecimal).toRat = 47 / 10 ∧
    specRound (47 / 10) = 5 ∧
    ratingHtmlOf ⟨none, none, none, none, none, none, none, none, none, some "4.7", none⟩ =
      some "<div class=\"rating\"><span class=\"stars\">★★★★☆</span></div>" ∧
    countChar "★★★★☆" '★' = 4 ∧
    countChar "★★★★☆" '☆' = 1 ∧
    (4 : Int) ≠ specRound (47 / 10) := by
  have hf : ⌊(47 : ℚ) / 10⌋ = 4 := by
    rw [Int.floor_eq_iff]
    norm_num
  have hs : specRound (47 / 10) = 5 := by
    unfold specRound
    rw [hf]
    norm_num
  refine ⟨by decide, ?_, hs, by rfl, by rfl, by rfl, ?_⟩
  · norm_num [PyDecimal.toRat, PyDecimal.signedMant]
  · rw [hs]
    decide

/-- C2 (amended): for every product whose rating parses as a decimal
number, the rating block shows `int(float(rating))` (truncation toward
zero, not rounding) filled stars followed by `5 - int(float(rating))`
empty stars (a negative repetition count yields no stars), plus a
parenthesized review count when one is present. -/
theorem C2_rating_stars_truncation (p : ProductRecord) (d : PyDecimal)
    (h : pyFloat (ratingVal p) = some d) :
    (reviewsVal p = "" →
      ratingHtmlOf p =
        some ("<div class=\"rating\"><span class=\"stars\">"
          ++ starsOf (pyTrunc d) ++ "</span></div>")) ∧
    (reviewsVal p ≠ "" →
      ratingHtmlOf p =
        some ("<div class=\"rating\"><span class=\"stars\">"
          ++ starsOf (pyTrunc d) ++ "</span> <span class=\"review-count\">("
          ++ reviewsVal p ++ " reviews)</span></div>")) ∧
    countChar (starsOf (pyTrunc d)) '★' = (pyTrunc d).toNat ∧
    countChar (starsOf (pyTrunc d)) '☆' = (5 - pyTrunc d).toNat := by
  have hne : ratingVal p ≠ "" := by
    intro he
    rw [he, pyFloat_empty] at h
    exact Option.noConfusion h
  refine ⟨?_, ?_, (countChar_starsOf _).1, (countChar_starsOf _).2⟩
  all_goals intro hrev
  all_goals simp [ratingHtmlOf, hne, h, hrev, String.append_assoc]

/-- Witness for C2's amended theorem at rating `"3.2"` with 87 reviews:
three filled stars, two empty stars, review count rendered. -/
theorem C2_rating_stars_truncation_witness :
    ratingHtmlOf ⟨none, none, none, none, none, none, none, none, none,
        some "3.2", some "87"⟩ =
      some "<div class=\"rating\"><span class=\"stars\">★★★☆☆</span> <span class=\"review-count\">(87 reviews)</span></div>" ∧
    countChar (starsOf (pyTrunc ⟨false, 32, 1⟩)) '★' = 3 ∧
    countChar (starsOf (pyTrunc ⟨false, 32, 1⟩)) '☆' = 2 := by
  have h := C2_rating_stars_truncation
    ⟨none, none, none, none, none, none, none, none, none, some "3.2", some "87"⟩
    ⟨false, 32, 1⟩ (by decide)
  exact ⟨(h.2.1 (by decide)).trans (by decide), h.2.2.1.trans (by decide),
    h.2.2.2.trans (by decide)⟩

/-- C3 (counterexample): the claim says the product-card renderer never
raises and omits an unparseable rating block.  On a product whose rating
is the non-numeric string `"great"`, `int(float(rating))` raises
`ValueError` (modelled by `none`) and the exception propagates. -/
theorem C3_never_raises_counterexample :
    generate_affiliate_product_html
      ⟨none, none, none, none, none, none, none, none, none, some "great", none⟩ = none := by
  rfl

/-- C3 (amended): the product-card renderer raises (`none`) exactly when a
present (truthy) rating is non-numeric, or when the price and the original
price are both present and one of them is non-numeric (or the discount
divides by a zero original price); a present non-numeric price with no
original price does not raise — its block is rendered verbatim, not
omitted. -/
theorem C3_product_card_error_handling (p : ProductRecord) :
    (generate_affiliate_product_html p = none ↔
      (ratingVal p ≠ "" ∧ pyFloat (ratingVal p) = none) ∨ priceHtmlOf p = none) ∧
    (priceHtmlOf p = none ↔
      priceVal p ≠ "" ∧ originalPriceVal p ≠ "" ∧
        ((pyFloat (stripDollar (originalPriceVal p)) = none ∨
          pyFloat (stripDollar (priceVal p)) = none) ∨
         ∃ qo qp, pyFloat (stripDollar (originalPriceVal p)) = some qo ∧
           pyFloat (stripDollar (priceVal p)) = some qp ∧
           decLt qp qo = true ∧ qo.mant = 0)) ∧
    (priceVal p ≠ "" → originalPriceVal p = "" →
      priceHtmlOf p = some ("<span class=\"current-price\">$" ++ priceVal p ++ "</span>")) := by
  refine ⟨?_, ?_, ?_⟩
  · rw [generate_card_eq_none_iff, ratingHtmlOf_eq_none_iff]
    exact Or.comm
  · unfold priceHtmlOf
    by_cases hp : priceVal p = ""
    · simp [hp]
    · by_cases ho : originalPriceVal p = ""
      · simp [hp, ho]
      · cases hqo : pyFloat (stripDollar (originalPriceVal p)) <;>
          cases hqp : pyFloat (stripDollar (priceVal p)) <;>
          simp only [hp, ho, hqo, hqp, if_neg, ne_eq, not_false_eq_true]
        · simp
        · simp
        · simp
        · rename_i qo qp
          by_cases hlt : decLt qp qo = true
          · by_cases hz : qo.mant = 0 <;> simp [hlt, hz]
          · simp [hlt]
  · intro hp ho
    unfold priceHtmlOf
    simp [hp, ho]

/-- Witness for C3's amended theorem: a present non-numeric price with no
original price renders verbatim (and does not raise). -/
theorem C3_product_card_error_handling_witness :
    priceHtmlOf ⟨none, some "abc", none, none, none, none, none, none, none, none, none⟩ =
      some "<span class=\"current-price\">$abc</span>" := by
  have h := (C3_product_card_error_handling
    ⟨none, some "abc", none, none, none, none, none, none, none, none, none⟩).2.2
    (by decide) (by decide)
  exact h.trans (by decide)

/-- C4 (counterexample): the claim says every post with a parseable
`published_at` gets an age-based change frequency.  The timestamp
`2020-01-01T00:00:00` (no offset) parses fine, but subtracting the
resulting naive datetime from the aware `now` raises `TypeError`, which
the bare `except` turns into the category default: with the `sneaker`
default `daily`, a post over 1600 days old is marked `daily` instead of
the `yearly` its age demands. -/
theorem C4_changefreq_counterexample :
    parsePublished "2020-01-01T00:00:00" = some ⟨2020, 1, 1, 0, 0, 0, 0, none⟩ ∧
    changefreqOfPost ⟨2024, 6, 15, 12, 0, 0, 0, some 0⟩ "daily"
      (some "2020-01-01T00:00:00") = "daily" ∧
    Int.fdiv (epochMicroAt ⟨2024, 6, 15, 12, 0, 0, 0, some 0⟩ 0
      - epochMicroAt ⟨2020, 1, 1, 0, 0, 0, 0, none⟩ 0) 86400000000 = 1627 ∧
    ageChangefreq 1627 = "yearly" ∧
    ("daily" : String) ≠ "yearly" := by
  refine ⟨by decide, by decide, by decide, by rfl, by decide⟩

/-- C4 (amended): for every post whose `published_at` parses to a
timezone-aware instant, the change frequency follows the age bands —
`days_old < 7` gives `daily`, `7 ≤ days_old < 30` gives `weekly`,
`30 ≤ days_old < 180` gives `monthly`, `180 ≤ days_old` gives `yearly` —
while an absent, unparseable, or timezone-naive `published_at` (whose
subtraction from the aware `now` raises) uses the category default. -/
theorem C4_changefreq_age (now : PyDateTime) (cfg : String) (pub : Option String) :
    (∀ s dt days, pub = some s → parsePublished s = some dt →
      timedeltaDays now dt = some days →
        (days < 7 → changefreqOfPost now cfg pub = "daily") ∧
        (7 ≤ days → days < 30 → changefreqOfPost now cfg pub = "weekly") ∧
        (30 ≤ days → days < 180 → changefreqOfPost now cfg pub = "monthly") ∧
        (180 ≤ days → changefreqOfPost now cfg pub = "yearly")) ∧
    (pub = none → changefreqOfPost now cfg pub = cfg) ∧
    (∀ s, pub = some s → parsePublished s = none →
      changefreqOfPost now cfg pub = cfg) ∧
    (∀ s dt, pub = some s → parsePublished s = some dt →
      timedeltaDays now dt = none → changefreqOfPost now cfg pub = cfg) := by
  refine ⟨?_, ?_, ?_, ?_⟩
  · intro s dt days hs hp hd
    have hne : s ≠ "" := by
      intro h
      rw [h, parsePublished_empty] at hp
      exact Option.noConfusion hp
    subst hs
    have hred : changefreqOfPost now cfg (some s) = ageChangefreq days := by
      simp [changefreqOfPost, hne, hp, hd]
    rw [hred]
    unfold ageChangefreq
    refine ⟨?_, ?_, ?_, ?_⟩ <;> intros <;> split_ifs <;> first | rfl | omega
  · intro h
    subst h
    rfl
  · intro s hs hp
    subst hs
    by_cases hne : s = "" <;> simp [changefreqOfPost, hne, hp]
  · intro s dt hs hp hd
    have hne : s ≠ "" := by
      intro h
      rw [h, parsePublished_empty] at hp
      exact Option.noConfusion hp
    subst hs
    simp [changefreqOfPost, hne, hp, hd]

/-- Witness for C4's amended theorem: from `now = 2024-06-15T12:00:00Z`,
aware posts aged 1, 10, 40 and 200 days get `daily`, `weekly`, `monthly`,
`yearly`; an absent, unparseable, or naive timestamp gets the category
default. -/
theorem C4_changefreq_age_witness :
    changefreqOfPost ⟨2024, 6, 15, 12, 0, 0, 0, some 0⟩ "weekly"
      (some "2024-06-14T12:00:00Z") = "daily" ∧
    changefreqOfPost ⟨2024, 6, 15, 12, 0, 0, 0, some 0⟩ "daily"
      (some "2024-06-05T12:00:00Z") = "weekly" ∧
    changefreqOfPost ⟨2024, 6, 15, 12, 0, 0, 0, some 0⟩ "daily"
      (some "2024-05-06T12:00:00Z") = "monthly" ∧
    changefreqOfPost ⟨2024, 6, 15, 12, 0, 0, 0, some 0⟩ "daily"
      (some "2023-11-28T12:00:00Z") = "yearly" ∧
    changefreqOfPost ⟨2024, 6, 15, 12, 0, 0, 0, some 0⟩ "weekly" none = "weekly" ∧
    changefreqOfPost ⟨2024, 6, 15, 12, 0, 0, 0, some 0⟩ "weekly"
      (some "garbage") = "weekly" := by
  refine ⟨((C4_changefreq_age _ _ _).1 _ ⟨2024, 6, 14, 12, 0, 0, 0, some 0⟩ 1
      rfl (by decide) (by decide)).1 (by decide),
    ((C4_changefreq_age _ _ _).1 _ ⟨2024, 6, 5, 12, 0, 0, 0, some 0⟩ 10
      rfl (by decide) (by decide)).2.1 (by decide) (by decide),
    ((C4_changefreq_age _ _ _).1 _ ⟨2024, 5, 6, 12, 0, 0, 0, some 0⟩ 40
      rfl (by decide) (by decide)).2.2.1 (by decide) (by decide),
    ((C4_changefreq_age _ _ _).1 _ ⟨2023, 11, 28, 12, 0, 0, 0, some 0⟩ 200
      rfl (by decide) (by decide)).2.2.2 (by decide),
    (C4_changefreq_age _ "weekly" none).2.1 rfl,
    (C4_changefreq_age _ _ _).2.2.1 _ rfl (by decide)⟩

/-- C10: the news-sitemap cutoff subtracts 2 from the day-of-month with a
field replacement, so for every valid rendering date the computation
raises `ValueError` exactly when the day-of-month is 1 or 2, and
news-sitemap generation succeeds exactly when the day-of-month is at
least 3. -/
theorem C10_news_cutoff_day_range (now : PyDateTime) (path : String)
    (posts : List PostRecord)
    (h2 : now.day ≤ daysInMonth now.year now.month) :
    (newsCutoff now = none ↔ now.day < 3) ∧
    (generate_news_sitemap now path posts = .error () ↔ now.day < 3) := by
  by_cases h3 : 3 ≤ now.day
  · have hcut := newsCutoff_eq_some now h3 h2
    refine ⟨⟨fun h => ?_, fun h => absurd h (by omega)⟩,
      ⟨fun h => ?_, fun h => absurd h (by omega)⟩⟩
    · rw [hcut] at h
      exact Option.noConfusion h
    · unfold generate_news_sitemap at h
      rw [hcut] at h
      dsimp only at h
      split at h <;> exact Except.noConfusion h
  · have hcut := newsCutoff_eq_none now (by omega)
    refine ⟨⟨fun _ => by omega, fun _ => hcut⟩, ⟨fun _ => by omega, fun _ => ?_⟩⟩
    unfold generate_news_sitemap
    rw [hcut]

/-- Witness for C10: on 2024-06-02 news generation raises; on 2024-06-03,
with no posts, it returns the Python `None` document. -/
theorem C10_news_cutoff_day_range_witness :
    generate_news_sitemap ⟨2024, 6, 2, 12, 0, 0, 0, some 0⟩ "blog/sneaker" [] =
      .error () ∧
    ¬ generate_news_sitemap ⟨2024, 6, 3, 12, 0, 0, 0, some 0⟩ "blog/sneaker" [] =
      .error () := by
  refine ⟨(C10_news_cutoff_day_range ⟨2024, 6, 2, 12, 0, 0, 0, some 0⟩ "blog/sneaker" []
      (by decide)).2.mpr (by decide), fun h => ?_⟩
  have := (C10_news_cutoff_day_range ⟨2024, 6, 3, 12, 0, 0, 0, some 0⟩ "blog/sneaker" []
      (by decide)).2.mp h
  exact absurd this (by decide)

/-- C5: on a rendering date whose day-of-month is at least 3 (otherwise
the cutoff raises — claim C10), the news sitemap keeps exactly the posts
whose `published_at` parses to an aware instant at or after midnight two
days back, returns the Python `None` when no post survives, and emits one
entry per surviving post in order; a post published exactly 3 days before
`now` falls strictly before the cutoff (excluded) and one published 1 day
before falls at or after it (included). -/
theorem C5_news_filter (now : PyDateTime) (path : String) (posts : List PostRecord)
    (hz : now.tzOffsetMin = some 0)
    (h3 : 3 ≤ now.day) (h2 : now.day ≤ daysInMonth now.year now.month)
    (hh : now.hour ≤ 23) (hmi : now.minute ≤ 59) (hs : now.second ≤ 59)
    (hus : now.microsecond ≤ 999999) :
    newsCutoff now = some (cutoffFor now) ∧
    (∀ post, newsIncludePost (cutoffFor now) post = true ↔
      ∃ s dt, post.published_at = some s ∧ parsePublished s = some dt ∧
        pyGE dt (cutoffFor now) = some true) ∧
    (generate_news_sitemap now path posts = .ok none ↔
      posts.filter (newsIncludePost (cutoffFor now)) = []) ∧
    (posts.filter (newsIncludePost (cutoffFor now)) ≠ [] →
      generate_news_sitemap now path posts =
        .ok (some ((posts.filter (newsIncludePost (cutoffFor now))).map
          (newsEntryOf path now)))) ∧
    (∀ dt : PyDateTime, dt.tzOffsetMin = some 0 →
      epochMicroAt dt 0 = epochMicroAt now 0 - 3 * 86400000000 →
      pyGE dt (cutoffFor now) = some false) ∧
    (∀ dt : PyDateTime, dt.tzOffsetMin = some 0 →
      epochMicroAt dt 0 = epochMicroAt now 0 - 1 * 86400000000 →
      pyGE dt (cutoffFor now) = some true) := by
  have hcut := newsCutoff_eq_some now h3 h2
  have hcz : (cutoffFor now).tzOffsetMin = some 0 := by
    simp [cutoffFor, hz]
  have hCE := epochMicro_cutoffFor now h3
  have hNE := epochMicroAt_split now
  refine ⟨hcut, ?_, ?_, ?_, ?_, ?_⟩
  · intro post
    unfold newsIncludePost
    cases hpa : post.published_at with
    | none => simp
    | some s =>
      by_cases hse : s = ""
      · subst hse
        simp [parsePublished_empty]
      · simp only [hse, if_neg, if_false, ite_false]
        cases hp : parsePublished s with
        | none => simp [hp]
        | some dt =>
          cases hge : pyGE dt (cutoffFor now) with
          | none => simp [hp, hge]
          | some b => cases b <;> simp [hp, hge]
  · unfold generate_news_sitemap
    rw [hcut]
    dsimp only
    split
    · rename_i hemp
      simp_all [List.isEmpty_iff]
    · rename_i hemp
      simp_all [List.isEmpty_iff]
  · intro hne
    unfold generate_news_sitemap
    rw [hcut]
    dsimp only
    split
    · rename_i hemp
      rw [List.isEmpty_iff] at hemp
      exact absurd hemp hne
    · rfl
  · intro dt htz hE
    have hlt : epochMicroAt dt 0 - epochMicroAt (cutoffFor now) 0 < 0 := by
      omega
    unfold pyGE pyDiffMicro
    rw [htz, hcz]
    simp only [Option.map_some]
    simp [decide_eq_false_iff_not]
    omega
  · intro dt htz hE
    have hge : 0 ≤ epochMicroAt dt 0 - epochMicroAt (cutoffFor now) 0 := by
      omega
    unfold pyGE pyDiffMicro
    rw [htz, hcz]
    simp only [Option.map_some]
    simp [decide_eq_true_eq]
    omega

/-- Witness for C5 at `now = 2024-06-05T12:00:00Z` (cutoff
2024-06-03T00:00:00+00:00): a post published 2024-06-02T11:00:00Z is
filtered out and the renderer returns the Python `None`; an instant
exactly 3 days before `now` compares below the cutoff and one exactly
1 day before compares at-or-after it. -/
theorem C5_news_filter_witness :
    newsCutoff ⟨2024, 6, 5, 12, 0, 0, 0, some 0⟩ =
      some (cutoffFor ⟨2024, 6, 5, 12, 0, 0, 0, some 0⟩) ∧
    generate_news_sitemap ⟨2024, 6, 5, 12, 0, 0, 0, some 0⟩ "blog/sneaker"
      [⟨some "p2", some "s2", none, none, none, none, none,
        some "2024-06-02T11:00:00Z", none, none, none, none, none, []⟩] = .ok none ∧
    pyGE ⟨2024, 6, 2, 12, 0, 0, 0, some 0⟩
      (cutoffFor ⟨2024, 6, 5, 12, 0, 0, 0, some 0⟩) = some false ∧
    pyGE ⟨2024, 6, 4, 12, 0, 0, 0, some 0⟩
      (cutoffFor ⟨2024, 6, 5, 12, 0, 0, 0, some 0⟩) = some true := by
  have h := C5_news_filter ⟨2024, 6, 5, 12, 0, 0, 0, some 0⟩ "blog/sneaker"
    [⟨some "p2", some "s2", none, none, none, none, none,
      some "2024-06-02T11:00:00Z", none, none, none, none, none, []⟩]
    rfl (by decide) (by decide) (by decide) (by decide) (by decide) (by decide)
  exact ⟨h.1, h.2.2.1.mpr (by decide), h.2.2.2.2.1 _ rfl (by decide),
    h.2.2.2.2.2 _ rfl (by decide)⟩

/-- C6: the meta-tag description is the escaped
`meta_description`-else-`excerpt`-else-empty string hard-cut to at most
160 characters (a raw description longer than 160 yields exactly 160), the
index-card excerpt is hard-cut to at most 200, and the index card always
appends the literal `...` after the cut — both cuts are plain character
slices with no word-boundary awareness. -/
theorem C6_description_truncation (post : PostRecord) :
    (metaTagsDescription post).length ≤ 160 ∧
    ((rawDescription post).length > 160 → (metaTagsDescription post).length = 160) ∧
    (indexCardExcerpt post).length ≤ 200 ∧
    ((post.excerpt.getD "").length > 200 → (indexCardExcerpt post).length = 200) ∧
    indexCardBody post = "<p>" ++ indexCardExcerpt post ++ "...</p>" := by
  have hlen : ∀ (s : String) (n : Nat), (pySlice s n).length = min n s.length := by
    intro s n
    show (s.data.take n).length = min n s.data.length
    exact List.length_take n s.data
  have hm : (metaTagsDescription post).length =
      min 160 (escape_html (rawDescription post)).length := hlen _ 160
  have hi : (indexCardExcerpt post).length =
      min 200 (escape_html (post.excerpt.getD "")).length := hlen _ 200
  have he1 := length_le_escape_html (rawDescription post)
  have he2 := length_le_escape_html (post.excerpt.getD "")
  refine ⟨by omega, fun h => by omega, by omega, fun h => by omega, rfl⟩

set_option maxRecDepth 4000 in
/-- Witness for C6: a 200-character meta description is cut to exactly
160 characters; a 250-character excerpt is cut to exactly 200. -/
theorem C6_description_truncation_witness :
    (metaTagsDescription ⟨none, none, none, none,
      some ⟨List.replicate 200 'a'⟩, none, none, none, none, none, none, none,
      none, []⟩).length = 160 ∧
    (indexCardExcerpt ⟨none, none, none, some ⟨List.replicate 250 'b'⟩,
      none, none, none, none, none, none, none, none, none, []⟩).length = 200 := by
  exact ⟨(C6_description_truncation _).2.1 (by decide),
    (C6_description_truncation _).2.2.2.1 (by decide)⟩

/-- C7 (counterexample): the claim says every title rendered into HTML
pages falls back to the literal `Untitled`.  The meta-tags block of the
HTML page (its `<title>` element and OG/Twitter titles) instead falls
back to `ShoeSwiper Blog` (`html_generator.py` line 73). -/
theorem C7_meta_title_counterexample :
    metaTagsTitle emptyPost = "ShoeSwiper Blog" ∧
    metaTitleElement emptyPost "Sneaker Blog" =
      "<title>ShoeSwiper Blog | Sneaker Blog</title>" ∧
    ("ShoeSwiper Blog" : String) ≠ "Untitled" := by
  exact ⟨rfl, rfl, by decide⟩

/-- C7 (amended): for every post with no title field, the article
headline, index card, RSS item, and Atom entry titles are the literal
`Untitled`, while the meta-tags block uses `ShoeSwiper Blog`; in all
cases the rendered title is non-empty. -/
theorem C7_untitled_fallback (post : PostRecord) (h : post.title = none) :
    articleTitle post = "Untitled" ∧
    indexCardTitle post = "Untitled" ∧
    rssItemTitle post = "Untitled" ∧
    atomEntryTitle post = "Untitled" ∧
    metaTagsTitle post = "ShoeSwiper Blog" ∧
    articleTitle post ≠ "" ∧
    metaTagsTitle post ≠ "" := by
  unfold articleTitle indexCardTitle rssItemTitle atomEntryTitle metaTagsTitle
  rw [h]
  exact ⟨by decide, by decide, by decide, by decide, by decide, by decide, by decide⟩

/-- Witness for C7's amended theorem at the record with every field
absent. -/
theorem C7_untitled_fallback_witness :
    articleTitle emptyPost = "Untitled" ∧
    indexCardTitle emptyPost = "Untitled" ∧
    rssItemTitle emptyPost = "Untitled" ∧
    atomEntryTitle emptyPost = "Untitled" ∧
    metaTagsTitle emptyPost = "ShoeSwiper Blog" ∧
    articleTitle emptyPost ≠ "" ∧
    metaTagsTitle emptyPost ≠ "" :=
  C7_untitled_fallback emptyPost rfl

/-- C8 (counterexample): the claim says every handler returns 207 when a
per-item failure is recorded.  The HTML handler records the failure of
post `p1` (whose product card raises on the rating `"great"`) yet still
returns the literal status 200. -/
theorem C8_html_status_counterexample :
    (html_lambda_handler ["sneaker"] false
      (fun _ => [⟨some "p1", some "s1", none, none, none, none, none, none, none,
        none, none, none, none,
        [⟨none, none, none, none, none, none, none, none, none, some "great", none⟩]⟩])
      (fun _ => true)).failed = ["p1"] ∧
    (html_lambda_handler ["sneaker"] false
      (fun _ => [⟨some "p1", some "s1", none, none, none, none, none, none, none,
        none, none, none, none,
        [⟨none, none, none, none, none, none, none, none, none, some "great", none⟩]⟩])
      (fun _ => true)).statusCode = 200 ∧
    (200 : Nat) ≠ 207 := by
  exact ⟨rfl, rfl, by decide⟩

/-- C8 (amended): only the RSS handler maps recorded failures to the
status code — 200 exactly when its failure list is empty and 207 exactly
when it is not — while the HTML and sitemap handlers return the literal
200 regardless of the errors recorded in their summaries. -/
theorem C8_status_codes (blogs : List String) (fetchR : String → List PostRecord)
    (upR : String → Bool) (cats : List String) (gi : Bool)
    (fetchH : String → List PostRecord) (upH : String → Bool)
    (scats : List String) (now : PyDateTime)
    (fetchS : String → List PostRecord) (upS : String → Bool) :
    ((rss_lambda_handler blogs fetchR upR).statusCode = 200 ↔
      (rss_lambda_handler blogs fetchR upR).failed = []) ∧
    ((rss_lambda_handler blogs fetchR upR).statusCode = 207 ↔
      (rss_lambda_handler blogs fetchR upR).failed ≠ []) ∧
    (html_lambda_handler cats gi fetchH upH).statusCode = 200 ∧
    (sitemap_lambda_handler scats now fetchS upS).statusCode = 200 := by
  refine ⟨?_, ?_, rfl, rfl⟩ <;>
    · unfold rss_lambda_handler
      dsimp only
      split
      · rename_i he
        rw [List.isEmpty_iff] at he
        simp [he]
      · rename_i he
        rw [List.isEmpty_iff] at he
        simp [he]

/-- C9 (counterexample): the claim says every fallback-scan fetch path
sorts by publish time descending, including the sitemap generator's.  The
sitemap fetch returns the scan result verbatim: a scan yielding an older
post before a newer one stays unsorted. -/
theorem C9_sitemap_unsorted_counterexample :
    ¬ pubSortedDesc (sitemap_fetch_posts 50 (.error ())
      [⟨some "p1", none, none, none, none, none, none,
        some "2024-01-01T00:00:00Z", none, none, none, none, none, []⟩,
       ⟨some "p2", none, none, none, none, none, none,
        some "2024-06-01T00:00:00Z", none, none, none, none, none, []⟩]) := by
  unfold pubSortedDesc sitemap_fetch_posts
  decide

/-- C9 (amended): when the indexed query fails, the RSS handler's fallback
path sorts the scan results by `published_at` descending before
truncating, while the sitemap handler's fallback path returns the scan
results verbatim (truncated), with no sort. -/
theorem C9_fallback_scan_ordering (limit : Nat) (scan : List PostRecord) :
    pubSortedDesc (rss_fetch_posts limit (.error ()) scan) ∧
    sitemap_fetch_posts limit (.error ()) scan = scan.take limit := by
  refine ⟨?_, rfl⟩
  have htrans : ∀ a b c : PostRecord, strLe (pubKey b) (pubKey a) = true →
      strLe (pubKey c) (pubKey b) = true →
      strLe (pubKey c) (pubKey a) = true := fun a b c h1 h2 =>
    charListLe_trans _ _ _ h2 h1
  have htotal : ∀ a b : PostRecord,
      (strLe (pubKey b) (pubKey a) || strLe (pubKey a) (pubKey b)) = true :=
    fun a b => charListLe_total _ _
  have hs := List.sorted_mergeSort htrans htotal scan
  exact List.Pairwise.sublist (List.take_sublist _ _) hs

end ShoeSwiper
